import Mathlib

/-!
Verification of the task-manager storage layer (models.py, storage.py,
business_logic.py), shallowly embedded in Lean.

Conventions of the embedding:
- Python dicts are insertion-ordered association lists.
- A flat record (a time-entry dict, and a row returned by the relational
  backend) is a list of string keys paired with scalar values.
- A task or template record is a list of string keys paired with values that
  are scalars, lists of strings, or lists of flat records.
- Machine floats (duration_minutes) carry no arithmetic anywhere in the
  storage layer, so they are modelled as rationals that are merely stored
  and compared.
- Nondeterministic value factories (uuid4, datetime.now) are supplied by a
  Gen record; timestamps handled symbolically are parsed by an explicit
  parse function passed where the source calls datetime.fromisoformat.
-/

namespace TaskMgr

/-- Scalar values as they appear in a flat record or a database cell. -/
inductive SVal where
  | snull
  | sbool (b : Bool)
  | sint (n : Int)
  | srat (q : ℚ)
  | sstr (s : String)
deriving DecidableEq, Repr

/-- A flat record: a Python dict of scalars (a time-entry dict, a db row). -/
abbrev FlatRec := List (String × SVal)

/-- Values of a task or template record field. -/
inductive FVal where
  | scalar (v : SVal)
  | slist (xs : List String)
  | rlist (xs : List FlatRec)
deriving DecidableEq, Repr

/-- A task or template record: a Python dict keyed by field name. -/
abbrev Rec := List (String × FVal)

/-- Supplies the values produced by the uuid4 and datetime.now factories. -/
structure Gen where
  uuid : String
  now : String
deriving DecidableEq, Repr

/-- First-match association-list lookup, as Python getitem on a dict whose
keys are unique. -/
def recFind {α : Type} : List (String × α) → String → Option α
  | [], _ => none
  | (k, v) :: rest, key => if k = key then some v else recFind rest key

/-- Removes a key from a record: a hand-crafted record lacking the field. -/
def eraseKey {α : Type} (key : String) (r : List (String × α)) :
    List (String × α) :=
  r.filter (fun kv => kv.1 ≠ key)

/-- Python dict assignment: replace the value in place, or append a new key. -/
def mapSet {α : Type} : List (String × α) → String → α → List (String × α)
  | [], key, v => [(key, v)]
  | (k, w) :: rest, key, v =>
    if k = key then (k, v) :: rest else (k, w) :: mapSet rest key v

/-- Truthiness of an optional string: Python treats None and the empty
string as false. -/
def strOptTruthy : Option String → Bool
  | none => false
  | some s => s ≠ ""

/-- Truthiness of an optional integer: Python treats None and 0 as false. -/
def intOptTruthy : Option Int → Bool
  | none => false
  | some n => n ≠ 0

/-- models.py TimeEntry (dataclass). -/
structure TimeEntry where
  id : String
  start_time : String
  end_time : Option String
  duration_minutes : ℚ
  notes : String
deriving DecidableEq, Repr

/-- models.py Task (dataclass). time_entries holds raw dicts, exactly as in
the source where the field is declared List of dict. -/
structure Task where
  id : String
  title : String
  description : String
  priority : String
  status : String
  created_at : String
  updated_at : String
  due_date : Option String
  completed_at : Option String
  categories : List String
  tags : List String
  is_recurring : Bool
  recurrence_type : Option String
  recurrence_interval : Int
  last_recurrence : Option String
  depends_on : List String
  blocked_by : List String
  time_entries : List FlatRec
  estimated_minutes : Option Int
  is_template : Bool
  template_name : Option String
  reminder_before_minutes : Option Int
  last_reminded : Option String
deriving DecidableEq, Repr

/-- models.py TaskTemplate (dataclass). -/
structure TaskTemplate where
  id : String
  name : String
  title : String
  description : String
  priority : String
  categories : List String
  tags : List String
  estimated_minutes : Option Int
  reminder_before_minutes : Option Int
deriving DecidableEq, Repr

/-- Encoding of an optional string field, as asdict produces it. -/
def encOptStr : Option String → SVal
  | none => .snull
  | some s => .sstr s

/-- Encoding of an optional integer field, as asdict produces it. -/
def encOptInt : Option Int → SVal
  | none => .snull
  | some n => .sint n

/-- models.py TimeEntry.to_dict: asdict of the dataclass, fields in
declaration order. -/
def TimeEntry.to_dict (e : TimeEntry) : FlatRec :=
  [ ("id", .sstr e.id),
    ("start_time", .sstr e.start_time),
    ("end_time", encOptStr e.end_time),
    ("duration_minutes", .srat e.duration_minutes),
    ("notes", .sstr e.notes) ]

/-- models.py Task.to_dict: asdict of the dataclass, fields in declaration
order; the raw time-entry dicts are embedded as they are. -/
def Task.to_dict (t : Task) : Rec :=
  [ ("id", .scalar (.sstr t.id)),
    ("title", .scalar (.sstr t.title)),
    ("description", .scalar (.sstr t.description)),
    ("priority", .scalar (.sstr t.priority)),
    ("status", .scalar (.sstr t.status)),
    ("created_at", .scalar (.sstr t.created_at)),
    ("updated_at", .scalar (.sstr t.updated_at)),
    ("due_date", .scalar (encOptStr t.due_date)),
    ("completed_at", .scalar (encOptStr t.completed_at)),
    ("categories", .slist t.categories),
    ("tags", .slist t.tags),
    ("is_recurring", .scalar (.sbool t.is_recurring)),
    ("recurrence_type", .scalar (encOptStr t.recurrence_type)),
    ("recurrence_interval", .scalar (.sint t.recurrence_interval)),
    ("last_recurrence", .scalar (encOptStr t.last_recurrence)),
    ("depends_on", .slist t.depends_on),
    ("blocked_by", .slist t.blocked_by),
    ("time_entries", .rlist t.time_entries),
    ("estimated_minutes", .scalar (encOptInt t.estimated_minutes)),
    ("is_template", .scalar (.sbool t.is_template)),
    ("template_name", .scalar (encOptStr t.template_name)),
    ("reminder_before_minutes", .scalar (encOptInt t.reminder_before_minutes)),
    ("last_reminded", .scalar (encOptStr t.last_reminded)) ]

/-- models.py TaskTemplate.to_dict. -/
def TaskTemplate.to_dict (t : TaskTemplate) : Rec :=
  [ ("id", .scalar (.sstr t.id)),
    ("name", .scalar (.sstr t.name)),
    ("title", .scalar (.sstr t.title)),
    ("description", .scalar (.sstr t.description)),
    ("priority", .scalar (.sstr t.priority)),
    ("categories", .slist t.categories),
    ("tags", .slist t.tags),
    ("estimated_minutes", .scalar (encOptInt t.estimated_minutes)),
    ("reminder_before_minutes", .scalar (encOptInt t.reminder_before_minutes)) ]

/-- The declared field names of Task, in dataclass order. A keyword argument
outside this list makes the constructor call raise. -/
def taskFieldNames : List String :=
  [ "id", "title", "description", "priority", "status", "created_at",
    "updated_at", "due_date", "completed_at", "categories", "tags",
    "is_recurring", "recurrence_type", "recurrence_interval",
    "last_recurrence", "depends_on", "blocked_by", "time_entries",
    "estimated_minutes", "is_template", "template_name",
    "reminder_before_minutes", "last_reminded" ]

/-- The declared field names of TimeEntry. -/
def timeEntryFieldNames : List String :=
  ["id", "start_time", "end_time", "duration_minutes", "notes"]

/-- The declared field names of TaskTemplate. -/
def templateFieldNames : List String :=
  [ "id", "name", "title", "description", "priority", "categories", "tags",
    "estimated_minutes", "reminder_before_minutes" ]

/-- Decode a required-string field: absent takes the default, a stored
string is taken as is, anything else is a type failure of the embedding
(the claims never reach it: the source stores ill-typed values unchecked). -/
def decStr : Option FVal → String → Except String String
  | none, d => .ok d
  | some (.scalar (.sstr s)), _ => .ok s
  | some _, _ => .error "type"

/-- Decode an optional-string field. -/
def decOptStr : Option FVal → Option String → Except String (Option String)
  | none, d => .ok d
  | some (.scalar .snull), _ => .ok none
  | some (.scalar (.sstr s)), _ => .ok (some s)
  | some _, _ => .error "type"

/-- Decode a boolean field. -/
def decBool : Option FVal → Bool → Except String Bool
  | none, d => .ok d
  | some (.scalar (.sbool b)), _ => .ok b
  | some _, _ => .error "type"

/-- Decode an integer field. -/
def decInt : Option FVal → Int → Except String Int
  | none, d => .ok d
  | some (.scalar (.sint n)), _ => .ok n
  | some _, _ => .error "type"

/-- Decode an optional-integer field. -/
def decOptInt : Option FVal → Option Int → Except String (Option Int)
  | none, d => .ok d
  | some (.scalar .snull), _ => .ok none
  | some (.scalar (.sint n)), _ => .ok (some n)
  | some _, _ => .error "type"

/-- Decode a list-of-strings field. -/
def decStrList : Option FVal → List String → Except String (List String)
  | none, d => .ok d
  | some (.slist xs), _ => .ok xs
  | some _, _ => .error "type"

/-- Decode a list-of-dicts field (time_entries). -/
def decRecList : Option FVal → List FlatRec → Except String (List FlatRec)
  | none, d => .ok d
  | some (.rlist xs), _ => .ok xs
  | some _, _ => .error "type"

/-- The keyword arguments of a Task constructor call: one lookup per declared
field, in declaration order. -/
structure TaskView where
  fId : Option FVal
  fTitle : Option FVal
  fDescription : Option FVal
  fPriority : Option FVal
  fStatus : Option FVal
  fCreated : Option FVal
  fUpdated : Option FVal
  fDue : Option FVal
  fCompleted : Option FVal
  fCategories : Option FVal
  fTags : Option FVal
  fIsRecurring : Option FVal
  fRecType : Option FVal
  fRecInterval : Option FVal
  fLastRec : Option FVal
  fDependsOn : Option FVal
  fBlockedBy : Option FVal
  fTimeEntries : Option FVal
  fEstimated : Option FVal
  fIsTemplate : Option FVal
  fTemplateName : Option FVal
  fReminder : Option FVal
  fLastReminded : Option FVal

/-- The lookups a Task constructor call performs on its keyword dict. -/
def taskViewOf (r : Rec) : TaskView where
  fId := recFind r "id"
  fTitle := recFind r "title"
  fDescription := recFind r "description"
  fPriority := recFind r "priority"
  fStatus := recFind r "status"
  fCreated := recFind r "created_at"
  fUpdated := recFind r "updated_at"
  fDue := recFind r "due_date"
  fCompleted := recFind r "completed_at"
  fCategories := recFind r "categories"
  fTags := recFind r "tags"
  fIsRecurring := recFind r "is_recurring"
  fRecType := recFind r "recurrence_type"
  fRecInterval := recFind r "recurrence_interval"
  fLastRec := recFind r "last_recurrence"
  fDependsOn := recFind r "depends_on"
  fBlockedBy := recFind r "blocked_by"
  fTimeEntries := recFind r "time_entries"
  fEstimated := recFind r "estimated_minutes"
  fIsTemplate := recFind r "is_template"
  fTemplateName := recFind r "template_name"
  fReminder := recFind r "reminder_before_minutes"
  fLastReminded := recFind r "last_reminded"

/-- Binding of the Task constructor parameters: each field takes the supplied
value or its dataclass default (uuid4 and now come from the Gen record). -/
def taskOfView (g : Gen) (v : TaskView) : Except String Task := do
  let id ← decStr v.fId g.uuid
  let title ← decStr v.fTitle ""
  let description ← decStr v.fDescription ""
  let priority ← decStr v.fPriority "medium"
  let status ← decStr v.fStatus "pending"
  let created_at ← decStr v.fCreated g.now
  let updated_at ← decStr v.fUpdated g.now
  let due_date ← decOptStr v.fDue none
  let completed_at ← decOptStr v.fCompleted none
  let categories ← decStrList v.fCategories []
  let tags ← decStrList v.fTags []
  let is_recurring ← decBool v.fIsRecurring false
  let recurrence_type ← decOptStr v.fRecType none
  let recurrence_interval ← decInt v.fRecInterval 1
  let last_recurrence ← decOptStr v.fLastRec none
  let depends_on ← decStrList v.fDependsOn []
  let blocked_by ← decStrList v.fBlockedBy []
  let time_entries ← decRecList v.fTimeEntries []
  let estimated_minutes ← decOptInt v.fEstimated none
  let is_template ← decBool v.fIsTemplate false
  let template_name ← decOptStr v.fTemplateName none
  let reminder_before_minutes ← decOptInt v.fReminder none
  let last_reminded ← decOptStr v.fLastReminded none
  .ok { id, title, description, priority, status, created_at, updated_at,
        due_date, completed_at, categories, tags, is_recurring,
        recurrence_type, recurrence_interval, last_recurrence, depends_on,
        blocked_by, time_entries, estimated_minutes, is_template,
        template_name, reminder_before_minutes, last_reminded }

/-- models.py Task.from_dict: a constructor call with the record as keyword
arguments. A key outside the declared fields raises; a missing field takes
its declared default. -/
def Task.from_dict (g : Gen) (r : Rec) : Except String Task :=
  if r.all (fun kv => taskFieldNames.contains kv.1) then
    taskOfView g (taskViewOf r)
  else
    .error "unexpected keyword argument"

/-- Decode a required-string keyword of a TimeEntry constructor call. -/
def decSStr : Option SVal → String → Except String String
  | none, d => .ok d
  | some (.sstr s), _ => .ok s
  | some _, _ => .error "type"

/-- Decode an optional-string keyword of a TimeEntry constructor call. -/
def decSOptStr : Option SVal → Option String → Except String (Option String)
  | none, d => .ok d
  | some .snull, _ => .ok none
  | some (.sstr s), _ => .ok (some s)
  | some _, _ => .error "type"

/-- Decode the numeric duration keyword; an integer is accepted as Python
accepts an int where a float is declared. -/
def decSNum : Option SVal → ℚ → Except String ℚ
  | none, d => .ok d
  | some (.srat q), _ => .ok q
  | some (.sint n), _ => .ok (n : ℚ)
  | some _, _ => .error "type"

/-- The keyword arguments of a TimeEntry constructor call. -/
structure TEView where
  fId : Option SVal
  fStart : Option SVal
  fEnd : Option SVal
  fDuration : Option SVal
  fNotes : Option SVal

/-- The lookups a TimeEntry constructor call performs on its keyword dict. -/
def teViewOf (r : FlatRec) : TEView where
  fId := recFind r "id"
  fStart := recFind r "start_time"
  fEnd := recFind r "end_time"
  fDuration := recFind r "duration_minutes"
  fNotes := recFind r "notes"

/-- Binding of the TimeEntry constructor parameters with their defaults. -/
def teOfView (g : Gen) (v : TEView) : Except String TimeEntry := do
  let id ← decSStr v.fId g.uuid
  let start_time ← decSStr v.fStart g.now
  let end_time ← decSOptStr v.fEnd none
  let duration_minutes ← decSNum v.fDuration 0
  let notes ← decSStr v.fNotes ""
  .ok { id, start_time, end_time, duration_minutes, notes }

/-- models.py TimeEntry.from_dict: a constructor call with the record as
keyword arguments; a key outside the declared fields raises. -/
def TimeEntry.from_dict (g : Gen) (r : FlatRec) : Except String TimeEntry :=
  if r.all (fun kv => timeEntryFieldNames.contains kv.1) then
    teOfView g (teViewOf r)
  else
    .error "unexpected keyword argument"

/-- The keyword arguments of a TaskTemplate constructor call. -/
structure TplView where
  fId : Option FVal
  fName : Option FVal
  fTitle : Option FVal
  fDescription : Option FVal
  fPriority : Option FVal
  fCategories : Option FVal
  fTags : Option FVal
  fEstimated : Option FVal
  fReminder : Option FVal

/-- The lookups a TaskTemplate constructor call performs. -/
def tplViewOf (r : Rec) : TplView where
  fId := recFind r "id"
  fName := recFind r "name"
  fTitle := recFind r "title"
  fDescription := recFind r "description"
  fPriority := recFind r "priority"
  fCategories := recFind r "categories"
  fTags := recFind r "tags"
  fEstimated := recFind r "estimated_minutes"
  fReminder := recFind r "reminder_before_minutes"

/-- Binding of the TaskTemplate constructor parameters with their defaults. -/
def tplOfView (g : Gen) (v : TplView) : Except String TaskTemplate := do
  let id ← decStr v.fId g.uuid
  let name ← decStr v.fName ""
  let title ← decStr v.fTitle ""
  let description ← decStr v.fDescription ""
  let priority ← decStr v.fPriority "medium"
  let categories ← decStrList v.fCategories []
  let tags ← decStrList v.fTags []
  let estimated_minutes ← decOptInt v.fEstimated none
  let reminder_before_minutes ← decOptInt v.fReminder none
  .ok { id, name, title, description, priority, categories, tags,
        estimated_minutes, reminder_before_minutes }

/-- models.py TaskTemplate.from_dict. -/
def TaskTemplate.from_dict (g : Gen) (r : Rec) : Except String TaskTemplate :=
  if r.all (fun kv => templateFieldNames.contains kv.1) then
    tplOfView g (tplViewOf r)
  else
    .error "unexpected keyword argument"

/-!
Document backend (storage.py JSONStorage). A stored file is either a
well-shaped document (one top-level collection of records) or malformed:
the malformed constructor stands for an unreadable file, text json.loads
rejects, a parsed layout the load loop cannot traverse, or a partial file
left behind by an interrupted write. The entries of a good file are
arbitrary records, so every decode failure the loop can raise is
representable. The saves write through Path.write_text, which opens the
file in mode w — truncating it in place — and then writes the serialized
document; that call is not atomic, so its environmental failure modes are
part of the source behavior and are modelled by an explicit outcome.
-/

/-- A stored JSON document file. -/
inductive JFile where
  | malformed
  | good (entries : List (String × Rec))
deriving DecidableEq

/-- The load loop: decode every record, the first failure aborting the
whole loop, as an exception aborts the Python for-loop. -/
def mapRecsM {α β : Type} (f : α → Except String β) :
    List α → Except String (List β)
  | [] => .ok []
  | a :: rest => do
      let b ← f a
      let bs ← mapRecsM f rest
      .ok (b :: bs)

/-- The try-block of JSONStorage.load_tasks: parse the file and decode every
record through Task.from_dict. -/
def JSONStorage.loadTasksE (g : Gen) : JFile →
    Except String (List (String × Task))
  | .malformed => .error "json.loads"
  | .good entries =>
      mapRecsM (fun kv => do
        let t ← Task.from_dict g kv.2
        .ok (kv.1, t)) entries

/-- storage.py JSONStorage.load_tasks: any exception in the try-block is
caught and an empty mapping returned. -/
def JSONStorage.load_tasks (g : Gen) (f : JFile) : List (String × Task) :=
  match JSONStorage.loadTasksE g f with
  | .ok tasks => tasks
  | .error _ => []

/-- The document JSONStorage.save_tasks writes: every task encoded through
to_dict under its mapping key. -/
def encodeTasksFile (tasks : List (String × Task)) : JFile :=
  .good (tasks.map fun kv => (kv.1, kv.2.to_dict))

/-- How one Path.write_text call ends. In mode w the open truncates the
file before anything is written, so there are three outcomes: the write
completes; the open itself raises (no permission, say) before the file is
touched; or the write raises after truncation (disk full mid-write, say),
leaving the file holding a proper prefix of the serialized document. A
proper prefix of the pretty-printed top-level document is never itself
valid JSON — its outermost braces balance only at the final character —
so json.loads rejects the leftover file: it is malformed. -/
inductive WriteOutcome where
  | ok
  | openFail
  | writeFail
deriving DecidableEq, Repr

/-- storage.py JSONStorage.save_tasks: json.dumps of a well-typed mapping
always succeeds in memory; then write_text runs. A completed write
replaces the file with the encoded mapping and True is returned. An open
failure is caught with the file untouched; a write failure after the
truncating open is caught with the file left partial, hence malformed.
Either caught exception returns False. -/
def JSONStorage.save_tasks (w : WriteOutcome) (fs : JFile)
    (tasks : List (String × Task)) : Bool × JFile :=
  match w with
  | .ok => (true, encodeTasksFile tasks)
  | .openFail => (false, fs)
  | .writeFail => (false, .malformed)

/-- The try-block of JSONStorage.load_templates. -/
def JSONStorage.loadTemplatesE (g : Gen) : JFile →
    Except String (List (String × TaskTemplate))
  | .malformed => .error "json.loads"
  | .good entries =>
      mapRecsM (fun kv => do
        let t ← TaskTemplate.from_dict g kv.2
        .ok (kv.1, t)) entries

/-- storage.py JSONStorage.load_templates. -/
def JSONStorage.load_templates (g : Gen) (f : JFile) :
    List (String × TaskTemplate) :=
  match JSONStorage.loadTemplatesE g f with
  | .ok tpls => tpls
  | .error _ => []

/-- The document JSONStorage.save_templates writes. -/
def encodeTemplatesFile (tpls : List (String × TaskTemplate)) : JFile :=
  .good (tpls.map fun kv => (kv.1, kv.2.to_dict))

/-- storage.py JSONStorage.save_templates: the same truncate-then-write
call and handler as save_tasks, on the templates file. -/
def JSONStorage.save_templates (w : WriteOutcome) (fs : JFile)
    (tpls : List (String × TaskTemplate)) : Bool × JFile :=
  match w with
  | .ok => (true, encodeTemplatesFile tpls)
  | .openFail => (false, fs)
  | .writeFail => (false, .malformed)

/-!
Relational backend (storage.py SQLiteStorage). The database is the
committed state of the eight tables created by the schema, plus a corrupt
flag: when the flag is set, any cursor execute raises (a corrupt or missing
schema), which is the read-failure mode of the backend. Each save call
works on an in-flight transaction: the pure computation either produces the
whole replacement state, which the commit makes visible, or fails, in which
case the rollback leaves the committed state exactly as it was.
-/

/-- A row of the tasks table, one column per field in schema order. -/
structure TaskRow where
  id : String
  title : String
  description : String
  priority : String
  status : String
  created_at : String
  updated_at : String
  due_date : Option String
  completed_at : Option String
  is_recurring : Int
  recurrence_type : Option String
  recurrence_interval : Int
  last_recurrence : Option String
  estimated_minutes : Option Int
  is_template : Int
  template_name : Option String
  reminder_before_minutes : Option Int
  last_reminded : Option String
deriving DecidableEq, Repr

/-- A row of the time_entries table. The data cells are dynamically typed
scalars, as SQLite cells are: the insert stores whatever scalar the raw
entry dict held. -/
structure TimeEntryRow where
  id : SVal
  task_id : String
  start_time : SVal
  end_time : SVal
  duration_minutes : SVal
  notes : SVal
deriving DecidableEq, Repr

/-- A row of the templates table. -/
structure TemplateRow where
  id : String
  name : String
  title : String
  description : String
  priority : String
  estimated_minutes : Option Int
  reminder_before_minutes : Option Int
deriving DecidableEq, Repr

/-- The committed state of the relational database. -/
structure SQLiteDB where
  corrupt : Bool
  tasks : List TaskRow
  task_categories : List (String × String)
  task_tags : List (String × String)
  task_dependencies : List (String × String)
  time_entries : List TimeEntryRow
  templates : List TemplateRow
  template_categories : List (String × String)
  template_tags : List (String × String)
deriving DecidableEq, Repr

/-- A freshly initialized database: empty schema, nothing corrupt. -/
def emptyDB : SQLiteDB :=
  { corrupt := false, tasks := [], task_categories := [], task_tags := [],
    task_dependencies := [], time_entries := [], templates := [],
    template_categories := [], template_tags := [] }

/-- A select of the child values of one parent id, in insertion order. -/
def childVals (rows : List (String × String)) (pid : String) : List String :=
  (rows.filter fun p => p.1 == pid).map Prod.snd

/-- dict(row) over a time_entries row: the whole row as a dict, the task_id
column included, keys in column order. -/
def timeEntryRowRec (e : TimeEntryRow) : FlatRec :=
  [ ("id", e.id),
    ("task_id", .sstr e.task_id),
    ("start_time", e.start_time),
    ("end_time", e.end_time),
    ("duration_minutes", e.duration_minutes),
    ("notes", e.notes) ]

/-- The time-entry dicts SQLiteStorage.load_tasks attaches to one task. -/
def entryRecsOf (db : SQLiteDB) (tid : String) : List FlatRec :=
  (db.time_entries.filter fun e => e.task_id == tid).map timeEntryRowRec

/-- The task dict SQLiteStorage.load_tasks hands to Task.from_dict: dict(row)
with the child collections attached, blocked_by left empty, and the two
integer-encoded booleans coerced back to booleans in place. -/
def taskRowRec (db : SQLiteDB) (row : TaskRow) : Rec :=
  [ ("id", .scalar (.sstr row.id)),
    ("title", .scalar (.sstr row.title)),
    ("description", .scalar (.sstr row.description)),
    ("priority", .scalar (.sstr row.priority)),
    ("status", .scalar (.sstr row.status)),
    ("created_at", .scalar (.sstr row.created_at)),
    ("updated_at", .scalar (.sstr row.updated_at)),
    ("due_date", .scalar (encOptStr row.due_date)),
    ("completed_at", .scalar (encOptStr row.completed_at)),
    ("is_recurring", .scalar (.sbool (row.is_recurring != 0))),
    ("recurrence_type", .scalar (encOptStr row.recurrence_type)),
    ("recurrence_interval", .scalar (.sint row.recurrence_interval)),
    ("last_recurrence", .scalar (encOptStr row.last_recurrence)),
    ("estimated_minutes", .scalar (encOptInt row.estimated_minutes)),
    ("is_template", .scalar (.sbool (row.is_template != 0))),
    ("template_name", .scalar (encOptStr row.template_name)),
    ("reminder_before_minutes",
      .scalar (encOptInt row.reminder_before_minutes)),
    ("last_reminded", .scalar (encOptStr row.last_reminded)),
    ("categories", .slist (childVals db.task_categories row.id)),
    ("tags", .slist (childVals db.task_tags row.id)),
    ("depends_on", .slist (childVals db.task_dependencies row.id)),
    ("blocked_by", .slist []),
    ("time_entries", .rlist (entryRecsOf db row.id)) ]

/-- storage.py SQLiteStorage.load_tasks: no handler guards the selects, so a
failed select raises to the caller; otherwise every row is assembled and
decoded through Task.from_dict, keyed by its id column. -/
def SQLiteStorage.load_tasks (g : Gen) (db : SQLiteDB) :
    Except String (List (String × Task)) :=
  if db.corrupt then .error "no such table"
  else
    mapRecsM (fun row => do
      let t ← Task.from_dict g (taskRowRec db row)
      .ok (row.id, t)) db.tasks

/-- The template dict SQLiteStorage.load_templates hands to from_dict. -/
def templateRowRec (db : SQLiteDB) (row : TemplateRow) : Rec :=
  [ ("id", .scalar (.sstr row.id)),
    ("name", .scalar (.sstr row.name)),
    ("title", .scalar (.sstr row.title)),
    ("description", .scalar (.sstr row.description)),
    ("priority", .scalar (.sstr row.priority)),
    ("estimated_minutes", .scalar (encOptInt row.estimated_minutes)),
    ("reminder_before_minutes",
      .scalar (encOptInt row.reminder_before_minutes)),
    ("categories", .slist (childVals db.template_categories row.id)),
    ("tags", .slist (childVals db.template_tags row.id)) ]

/-- storage.py SQLiteStorage.load_templates: unguarded, like load_tasks. -/
def SQLiteStorage.load_templates (g : Gen) (db : SQLiteDB) :
    Except String (List (String × TaskTemplate)) :=
  if db.corrupt then .error "no such table"
  else
    mapRecsM (fun row => do
      let t ← TaskTemplate.from_dict g (templateRowRec db row)
      .ok (row.id, t)) db.templates

/-- The parent row one task inserts, booleans stored as 0 or 1. -/
def taskRow (t : Task) : TaskRow :=
  { id := t.id, title := t.title, description := t.description,
    priority := t.priority, status := t.status, created_at := t.created_at,
    updated_at := t.updated_at, due_date := t.due_date,
    completed_at := t.completed_at,
    is_recurring := if t.is_recurring then 1 else 0,
    recurrence_type := t.recurrence_type,
    recurrence_interval := t.recurrence_interval,
    last_recurrence := t.last_recurrence,
    estimated_minutes := t.estimated_minutes,
    is_template := if t.is_template then 1 else 0,
    template_name := t.template_name,
    reminder_before_minutes := t.reminder_before_minutes,
    last_reminded := t.last_reminded }

/-- The time_entries row one raw entry dict inserts: the required keys read
by getitem, end_time and notes read by get with their fallbacks. -/
def timeEntryRowOf (tid : String) (r : FlatRec) : TimeEntryRow :=
  { id := (recFind r "id").getD .snull,
    task_id := tid,
    start_time := (recFind r "start_time").getD .snull,
    end_time := (recFind r "end_time").getD .snull,
    duration_minutes := (recFind r "duration_minutes").getD .snull,
    notes := (recFind r "notes").getD (.sstr "") }

/-- Insert one time-entry row: a missing required key raises KeyError while
the arguments are built; a duplicate primary key raises on execute. -/
def insertTimeEntryE (tid : String) (acc : SQLiteDB) (r : FlatRec) :
    Except String SQLiteDB :=
  if (recFind r "id").isSome && (recFind r "start_time").isSome &&
      (recFind r "duration_minutes").isSome then
    (if acc.time_entries.any (fun e => e.id == (timeEntryRowOf tid r).id) then
       .error "UNIQUE constraint failed: time_entries.id"
     else
       .ok { acc with
             time_entries := acc.time_entries ++ [timeEntryRowOf tid r] })
  else .error "KeyError"

/-- The insert loop over one task's time entries. -/
def insertEntriesE (tid : String) :
    List FlatRec → SQLiteDB → Except String SQLiteDB
  | [], acc => .ok acc
  | r :: rest, acc => do
      let acc2 ← insertTimeEntryE tid acc r
      insertEntriesE tid rest acc2

/-- The body of the save loop for one task: the parent row (its primary key
enforced), then its category, tag and dependency rows, then its entries. -/
def insertTaskE (acc : SQLiteDB) (t : Task) : Except String SQLiteDB :=
  if acc.tasks.any (fun row => row.id == t.id) then
    .error "UNIQUE constraint failed: tasks.id"
  else
    insertEntriesE t.id t.time_entries
      { acc with
        tasks := acc.tasks ++ [taskRow t],
        task_categories :=
          acc.task_categories ++ t.categories.map (fun c => (t.id, c)),
        task_tags := acc.task_tags ++ t.tags.map (fun c => (t.id, c)),
        task_dependencies :=
          acc.task_dependencies ++ t.depends_on.map (fun c => (t.id, c)) }

/-- The save loop over the whole mapping. -/
def insertTasksE : List (String × Task) → SQLiteDB → Except String SQLiteDB
  | [], acc => .ok acc
  | kv :: rest, acc => do
      let acc2 ← insertTaskE acc kv.2
      insertTasksE rest acc2

/-- The deletes that open SQLiteStorage.save_tasks: all five task tables
cleared inside the transaction. -/
def clearedTaskTables (db : SQLiteDB) : SQLiteDB :=
  { db with tasks := [], task_categories := [], task_tags := [],
            task_dependencies := [], time_entries := [] }

/-- The try-block of SQLiteStorage.save_tasks: the whole
delete-all-then-insert-all transaction as one fallible computation. -/
def SQLiteStorage.saveTasksE (db : SQLiteDB) (tasks : List (String × Task)) :
    Except String SQLiteDB :=
  if db.corrupt then .error "no such table"
  else insertTasksE tasks (clearedTaskTables db)

/-- storage.py SQLiteStorage.save_tasks: commit makes the replacement state
visible and returns True; any exception triggers rollback, leaving the
committed state untouched, and returns False. -/
def SQLiteStorage.save_tasks (db : SQLiteDB) (tasks : List (String × Task)) :
    Bool × SQLiteDB :=
  match SQLiteStorage.saveTasksE db tasks with
  | .ok db2 => (true, db2)
  | .error _ => (false, db)

/-- The parent row one template inserts. -/
def templateRow (t : TaskTemplate) : TemplateRow :=
  { id := t.id, name := t.name, title := t.title,
    description := t.description, priority := t.priority,
    estimated_minutes := t.estimated_minutes,
    reminder_before_minutes := t.reminder_before_minutes }

/-- Insert one template row: the primary key on id and the uniqueness
constraint on name are both enforced by the execute. -/
def insertTemplateE (acc : SQLiteDB) (t : TaskTemplate) :
    Except String SQLiteDB :=
  if acc.templates.any (fun row => row.id == t.id || row.name == t.name) then
    .error "UNIQUE constraint failed: templates"
  else
    .ok { acc with
          templates := acc.templates ++ [templateRow t],
          template_categories :=
            acc.template_categories ++ t.categories.map (fun c => (t.id, c)),
          template_tags :=
            acc.template_tags ++ t.tags.map (fun c => (t.id, c)) }

/-- The save loop over the template mapping. -/
def insertTemplatesE :
    List (String × TaskTemplate) → SQLiteDB → Except String SQLiteDB
  | [], acc => .ok acc
  | kv :: rest, acc => do
      let acc2 ← insertTemplateE acc kv.2
      insertTemplatesE rest acc2

/-- The deletes that open SQLiteStorage.save_templates. -/
def clearedTemplateTables (db : SQLiteDB) : SQLiteDB :=
  { db with templates := [], template_categories := [], template_tags := [] }

/-- The try-block of SQLiteStorage.save_templates. -/
def SQLiteStorage.saveTemplatesE (db : SQLiteDB)
    (tpls : List (String × TaskTemplate)) : Except String SQLiteDB :=
  if db.corrupt then .error "no such table"
  else insertTemplatesE tpls (clearedTemplateTables db)

/-- storage.py SQLiteStorage.save_templates: commit on success, rollback and
False on any exception. -/
def SQLiteStorage.save_templates (db : SQLiteDB)
    (tpls : List (String × TaskTemplate)) : Bool × SQLiteDB :=
  match SQLiteStorage.saveTemplatesE db tpls with
  | .ok db2 => (true, db2)
  | .error _ => (false, db)

/-!
Business layer (models.py methods, business_logic.py TaskManager). Wall
clock times are rationals measured in minutes; parse stands for
datetime.fromisoformat, fmt for isoformat on a computed datetime, and now
for datetime.now. One Gen record supplies the uuid and iso-now values a
single call produces.
-/

/-- Minutes in one day, one week, one approximate month, one approximate
year, as the timedelta arguments in generate_next_recurrence. -/
def dayMinutes : ℚ := 1440

/-- models.py Task.complete together with the update_timestamp it calls. -/
def Task.complete (now : String) (t : Task) : Task :=
  { t with status := "completed", completed_at := some now,
           updated_at := now }

/-- models.py Task.needs_reminder: the guards use Python truthiness (None
and empty string, None and zero are false), the reminder window opens
reminder_before_minutes before the due time, and a reminder in the last
hour suppresses a new one. -/
def Task.needs_reminder (parse : String → ℚ) (now : ℚ) (t : Task) : Bool :=
  if !(strOptTruthy t.due_date && intOptTruthy t.reminder_before_minutes) then
    false
  else if t.status = "completed" then
    false
  else
    let due := parse (t.due_date.getD "")
    let remind_time := due - ((t.reminder_before_minutes.getD 0 : Int) : ℚ)
    if remind_time ≤ now then
      (if strOptTruthy t.last_reminded then
        (if now - parse ((t.last_reminded).getD "") < 60 then false else true)
       else true)
    else false

/-- models.py Task.generate_next_recurrence: None unless the task is
recurring with a truthy recurrence type; otherwise a copy of the task
through the codec with a fresh id, pending status, cleared completion and
time entries, fresh timestamps, the due date advanced by the recurrence
pattern when one is set, and last_recurrence stamped. The codec copy is the
identity on every field, so the copy is written as a structure update. -/
def Task.generate_next_recurrence (parse : String → ℚ) (fmt : ℚ → String)
    (g : Gen) (t : Task) : Option Task :=
  if !(t.is_recurring && strOptTruthy t.recurrence_type) then none
  else
    let base : Task :=
      { t with id := g.uuid, status := "pending", completed_at := none,
               created_at := g.now, updated_at := g.now, time_entries := [] }
    let withDue : Task :=
      if strOptTruthy t.due_date then
        (let current_due := parse (t.due_date.getD "")
         let interval : ℚ := (t.recurrence_interval : ℚ)
         let new_due :=
           if t.recurrence_type = some "daily" then
             current_due + dayMinutes * interval
           else if t.recurrence_type = some "weekly" then
             current_due + 7 * dayMinutes * interval
           else if t.recurrence_type = some "monthly" then
             current_due + 30 * dayMinutes * interval
           else if t.recurrence_type = some "yearly" then
             current_due + 365 * dayMinutes * interval
           else current_due
         { base with due_date := some (fmt new_due) })
      else base
    some { withDue with last_recurrence := some g.now }

/-- business_logic.py TaskManager.complete_task, acting on the in-memory
task mapping: an unknown id changes nothing; otherwise the task is
completed in place and, when recurring, its next instance is generated and
stored under its fresh id. The storage save the method ends with does not
touch the mapping. -/
def TaskManager.complete_task (parse : String → ℚ) (fmt : ℚ → String)
    (g : Gen) (tasks : List (String × Task)) (task_id : String) :
    Option Task × List (String × Task) :=
  match recFind tasks task_id with
  | none => (none, tasks)
  | some task =>
      let task2 := task.complete g.now
      let tasks2 := mapSet tasks task_id task2
      if task2.is_recurring then
        match task2.generate_next_recurrence parse fmt g with
        | some next_task => (some task2, mapSet tasks2 next_task.id next_task)
        | none => (some task2, tasks2)
      else (some task2, tasks2)

/-!
Codec lemmas: decoding an encoded record recovers the entity, one simp
lemma per decoder-encoder pair, and the constructor-call views of the
records the two backends build, which reduce definitionally because every
record key is a literal.
-/

lemma exceptBind_ok {α β : Type} (a : α) (f : α → Except String β) :
    (Except.ok a >>= f) = f a := rfl

lemma exceptBind_error {α β : Type} (e : String) (f : α → Except String β) :
    ((Except.error e : Except String α) >>= f) = .error e := rfl

lemma decStr_sstr (s : String) (d : String) :
    decStr (some (.scalar (.sstr s))) d = .ok s := rfl

lemma decOptStr_enc (x : Option String) (d : Option String) :
    decOptStr (some (.scalar (encOptStr x))) d = .ok x := by
  cases x <;> rfl

lemma decOptInt_enc (x : Option Int) (d : Option Int) :
    decOptInt (some (.scalar (encOptInt x))) d = .ok x := by
  cases x <;> rfl

lemma decBool_sbool (b : Bool) (d : Bool) :
    decBool (some (.scalar (.sbool b))) d = .ok b := rfl

lemma decInt_sint (n : Int) (d : Int) :
    decInt (some (.scalar (.sint n))) d = .ok n := rfl

lemma decStrList_slist (xs : List String) (d : List String) :
    decStrList (some (.slist xs)) d = .ok xs := rfl

lemma decRecList_rlist (xs : List FlatRec) (d : List FlatRec) :
    decRecList (some (.rlist xs)) d = .ok xs := rfl

lemma decOptStr_none (d : Option String) : decOptStr none d = .ok d := rfl

lemma decOptInt_none (d : Option Int) : decOptInt none d = .ok d := rfl

/-- The constructor-call view of an encoded task: every keyword present. -/
def taskViewEnc (t : Task) : TaskView where
  fId := some (.scalar (.sstr t.id))
  fTitle := some (.scalar (.sstr t.title))
  fDescription := some (.scalar (.sstr t.description))
  fPriority := some (.scalar (.sstr t.priority))
  fStatus := some (.scalar (.sstr t.status))
  fCreated := some (.scalar (.sstr t.created_at))
  fUpdated := some (.scalar (.sstr t.updated_at))
  fDue := some (.scalar (encOptStr t.due_date))
  fCompleted := some (.scalar (encOptStr t.completed_at))
  fCategories := some (.slist t.categories)
  fTags := some (.slist t.tags)
  fIsRecurring := some (.scalar (.sbool t.is_recurring))
  fRecType := some (.scalar (encOptStr t.recurrence_type))
  fRecInterval := some (.scalar (.sint t.recurrence_interval))
  fLastRec := some (.scalar (encOptStr t.last_recurrence))
  fDependsOn := some (.slist t.depends_on)
  fBlockedBy := some (.slist t.blocked_by)
  fTimeEntries := some (.rlist t.time_entries)
  fEstimated := some (.scalar (encOptInt t.estimated_minutes))
  fIsTemplate := some (.scalar (.sbool t.is_template))
  fTemplateName := some (.scalar (encOptStr t.template_name))
  fReminder := some (.scalar (encOptInt t.reminder_before_minutes))
  fLastReminded := some (.scalar (encOptStr t.last_reminded))

lemma taskViewOf_to_dict (t : Task) :
    taskViewOf t.to_dict = taskViewEnc t := rfl

lemma taskOfView_enc (g : Gen) (t : Task) :
    taskOfView g (taskViewEnc t) = .ok t := by
  simp [taskOfView, taskViewEnc, exceptBind_ok, decStr_sstr, decOptStr_enc,
        decOptInt_enc, decBool_sbool, decInt_sint, decStrList_slist,
        decRecList_rlist]

/-- Decoding what to_dict encoded recovers the task: the document codec
round-trips on the entity level. -/
theorem Task.from_dict_to_dict (g : Gen) (t : Task) :
    Task.from_dict g t.to_dict = .ok t := by
  have h : Task.from_dict g t.to_dict = taskOfView g (taskViewOf t.to_dict) :=
    rfl
  rw [h, taskViewOf_to_dict, taskOfView_enc]

/-- The task SQLiteStorage.load_tasks assembles from one parent row: the
columns as stored, the child collections gathered by parent id, blocked_by
empty, the booleans decoded from their integer encoding, and the raw
time-entry dicts carrying the whole row including the task_id column. -/
def taskOfRow (db : SQLiteDB) (row : TaskRow) : Task :=
  { id := row.id, title := row.title, description := row.description,
    priority := row.priority, status := row.status,
    created_at := row.created_at, updated_at := row.updated_at,
    due_date := row.due_date, completed_at := row.completed_at,
    categories := childVals db.task_categories row.id,
    tags := childVals db.task_tags row.id,
    is_recurring := row.is_recurring != 0,
    recurrence_type := row.recurrence_type,
    recurrence_interval := row.recurrence_interval,
    last_recurrence := row.last_recurrence,
    depends_on := childVals db.task_dependencies row.id,
    blocked_by := [],
    time_entries := entryRecsOf db row.id,
    estimated_minutes := row.estimated_minutes,
    is_template := row.is_template != 0,
    template_name := row.template_name,
    reminder_before_minutes := row.reminder_before_minutes,
    last_reminded := row.last_reminded }

/-- The constructor-call view of the dict load_tasks builds from a row. -/
def taskViewRow (db : SQLiteDB) (row : TaskRow) : TaskView where
  fId := some (.scalar (.sstr row.id))
  fTitle := some (.scalar (.sstr row.title))
  fDescription := some (.scalar (.sstr row.description))
  fPriority := some (.scalar (.sstr row.priority))
  fStatus := some (.scalar (.sstr row.status))
  fCreated := some (.scalar (.sstr row.created_at))
  fUpdated := some (.scalar (.sstr row.updated_at))
  fDue := some (.scalar (encOptStr row.due_date))
  fCompleted := some (.scalar (encOptStr row.completed_at))
  fCategories := some (.slist (childVals db.task_categories row.id))
  fTags := some (.slist (childVals db.task_tags row.id))
  fIsRecurring := some (.scalar (.sbool (row.is_recurring != 0)))
  fRecType := some (.scalar (encOptStr row.recurrence_type))
  fRecInterval := some (.scalar (.sint row.recurrence_interval))
  fLastRec := some (.scalar (encOptStr row.last_recurrence))
  fDependsOn := some (.slist (childVals db.task_dependencies row.id))
  fBlockedBy := some (.slist [])
  fTimeEntries := some (.rlist (entryRecsOf db row.id))
  fEstimated := some (.scalar (encOptInt row.estimated_minutes))
  fIsTemplate := some (.scalar (.sbool (row.is_template != 0)))
  fTemplateName := some (.scalar (encOptStr row.template_name))
  fReminder := some (.scalar (encOptInt row.reminder_before_minutes))
  fLastReminded := some (.scalar (encOptStr row.last_reminded))

lemma taskViewOf_rowRec (db : SQLiteDB) (row : TaskRow) :
    taskViewOf (taskRowRec db row) = taskViewRow db row := rfl

lemma taskOfView_row (g : Gen) (db : SQLiteDB) (row : TaskRow) :
    taskOfView g (taskViewRow db row) = .ok (taskOfRow db row) := by
  simp [taskOfView, taskViewRow, taskOfRow, exceptBind_ok, decStr_sstr,
        decOptStr_enc, decOptInt_enc, decBool_sbool, decInt_sint,
        decStrList_slist, decRecList_rlist]

/-- Decoding the dict load_tasks assembles always succeeds and yields the
assembled task: every key of that dict is a declared field. -/
theorem Task.from_dict_rowRec (g : Gen) (db : SQLiteDB) (row : TaskRow) :
    Task.from_dict g (taskRowRec db row) = .ok (taskOfRow db row) := by
  have h : Task.from_dict g (taskRowRec db row) =
      taskOfView g (taskViewOf (taskRowRec db row)) := rfl
  rw [h, taskViewOf_rowRec, taskOfView_row]

/-!
Load and save characterizations.
-/

lemma mapRecsM_ok_of {α β : Type} (f : α → Except String β) (gf : α → β)
    (l : List α) (h : ∀ a ∈ l, f a = .ok (gf a)) :
    mapRecsM f l = .ok (l.map gf) := by
  induction l with
  | nil => rfl
  | cons a rest ih =>
      have ha : f a = .ok (gf a) := h a (by simp)
      have hrest : mapRecsM f rest = .ok (rest.map gf) :=
        ih (fun b hb => h b (by simp [hb]))
      simp [mapRecsM, ha, hrest, exceptBind_ok]

lemma mapRecsM_error {α β : Type} (f : α → Except String β) (l : List α)
    (a : α) (ha : a ∈ l) (e : String) (hf : f a = .error e) :
    ∃ e2, mapRecsM f l = .error e2 := by
  induction l with
  | nil => cases ha
  | cons b rest ih =>
      rcases List.mem_cons.mp ha with hab | harest
      · subst hab
        exact ⟨e, by simp [mapRecsM, hf, exceptBind_error]⟩
      · cases hfb : f b with
        | error e3 => exact ⟨e3, by simp [mapRecsM, hfb, exceptBind_error]⟩
        | ok v =>
            rcases ih harest with ⟨e2, h2⟩
            exact ⟨e2, by simp [mapRecsM, hfb, h2, exceptBind_ok, exceptBind_error]⟩

/-- On an intact schema, load_tasks succeeds and returns each stored row
assembled into a task, keyed by its id column. -/
theorem SQLiteStorage.load_tasks_ok (g : Gen) (db : SQLiteDB)
    (h : db.corrupt = false) :
    SQLiteStorage.load_tasks g db =
      .ok (db.tasks.map fun row => (row.id, taskOfRow db row)) := by
  rw [SQLiteStorage.load_tasks, if_neg (by simp [h])]
  exact mapRecsM_ok_of _ _ _ (fun row _ => by
    rw [Task.from_dict_rowRec, exceptBind_ok])

/-- The category rows the save loop inserts, in loop order. -/
def catRows : List (String × Task) → List (String × String)
  | [] => []
  | kv :: rest => kv.2.categories.map (fun c => (kv.2.id, c)) ++ catRows rest

/-- The tag rows the save loop inserts. -/
def tagRows : List (String × Task) → List (String × String)
  | [] => []
  | kv :: rest => kv.2.tags.map (fun c => (kv.2.id, c)) ++ tagRows rest

/-- The dependency rows the save loop inserts. -/
def depRows : List (String × Task) → List (String × String)
  | [] => []
  | kv :: rest => kv.2.depends_on.map (fun c => (kv.2.id, c)) ++ depRows rest

/-- The time-entry rows the save loop inserts. -/
def entryRows : List (String × Task) → List TimeEntryRow
  | [] => []
  | kv :: rest =>
      kv.2.time_entries.map (timeEntryRowOf kv.2.id) ++ entryRows rest

/-- The whole replacement state a successful save_tasks commits: exactly the
given mapping, encoded, with the template tables untouched. -/
def savedTasksState (db : SQLiteDB) (ts : List (String × Task)) : SQLiteDB :=
  { db with tasks := ts.map (fun kv => taskRow kv.2),
            task_categories := catRows ts,
            task_tags := tagRows ts,
            task_dependencies := depRows ts,
            time_entries := entryRows ts }

lemma insertTimeEntryE_ok (tid : String) (acc : SQLiteDB) (r : FlatRec)
    (acc2 : SQLiteDB) (h : insertTimeEntryE tid acc r = .ok acc2) :
    acc2 = { acc with
             time_entries := acc.time_entries ++ [timeEntryRowOf tid r] } := by
  unfold insertTimeEntryE at h
  split at h
  · split at h
    · exact absurd h (by simp)
    · injection h with h2
      exact h2.symm
  · exact absurd h (by simp)

lemma insertEntriesE_ok (tid : String) (entries : List FlatRec) :
    ∀ (acc acc2 : SQLiteDB), insertEntriesE tid entries acc = .ok acc2 →
      acc2 = { acc with time_entries :=
                 acc.time_entries ++ entries.map (timeEntryRowOf tid) } := by
  induction entries with
  | nil =>
      intro acc acc2 h
      injection h with h2
      subst h2
      simp
  | cons r rest ih =>
      intro acc acc2 h
      rw [insertEntriesE] at h
      cases hr : insertTimeEntryE tid acc r with
      | error e => rw [hr, exceptBind_error] at h; exact absurd h (by simp)
      | ok acc1 =>
          rw [hr, exceptBind_ok] at h
          have h1 := insertTimeEntryE_ok tid acc r acc1 hr
          have h2 := ih acc1 acc2 h
          subst h1
          subst h2
          simp

lemma insertTaskE_ok (acc : SQLiteDB) (t : Task) (acc2 : SQLiteDB)
    (h : insertTaskE acc t = .ok acc2) :
    acc2 = { acc with
             tasks := acc.tasks ++ [taskRow t],
             task_categories :=
               acc.task_categories ++ t.categories.map (fun c => (t.id, c)),
             task_tags := acc.task_tags ++ t.tags.map (fun c => (t.id, c)),
             task_dependencies :=
               acc.task_dependencies ++ t.depends_on.map (fun c => (t.id, c)),
             time_entries :=
               acc.time_entries ++
                 t.time_entries.map (timeEntryRowOf t.id) } := by
  unfold insertTaskE at h
  split at h
  · exact absurd h (by simp)
  · exact insertEntriesE_ok t.id t.time_entries _ acc2 h

lemma insertTasksE_ok (ts : List (String × Task)) :
    ∀ (acc acc2 : SQLiteDB), insertTasksE ts acc = .ok acc2 →
      acc2 = { acc with
               tasks := acc.tasks ++ ts.map (fun kv => taskRow kv.2),
               task_categories := acc.task_categories ++ catRows ts,
               task_tags := acc.task_tags ++ tagRows ts,
               task_dependencies := acc.task_dependencies ++ depRows ts,
               time_entries := acc.time_entries ++ entryRows ts } := by
  induction ts with
  | nil =>
      intro acc acc2 h
      injection h with h2
      subst h2
      simp [catRows, tagRows, depRows, entryRows]
  | cons kv rest ih =>
      intro acc acc2 h
      rw [insertTasksE] at h
      cases hk : insertTaskE acc kv.2 with
      | error e => rw [hk, exceptBind_error] at h; exact absurd h (by simp)
      | ok acc1 =>
          rw [hk, exceptBind_ok] at h
          have h1 := insertTaskE_ok acc kv.2 acc1 hk
          have h2 := ih acc1 acc2 h
          subst h1
          subst h2
          simp [catRows, tagRows, depRows, entryRows]

/-- A successful save_tasks commits exactly the encoded mapping. -/
theorem SQLiteStorage.save_tasks_ok (db : SQLiteDB)
    (ts : List (String × Task)) (db2 : SQLiteDB)
    (h : SQLiteStorage.save_tasks db ts = (true, db2)) :
    db2 = savedTasksState db ts := by
  rw [SQLiteStorage.save_tasks] at h
  cases he : SQLiteStorage.saveTasksE db ts with
  | error e => rw [he] at h; exact absurd h (by simp)
  | ok db3 =>
      rw [he] at h
      injection h with h1 h2
      subst h2
      rw [SQLiteStorage.saveTasksE] at he
      split at he
      · exact absurd he (by simp)
      · have := insertTasksE_ok ts (clearedTaskTables db) db3 he
        subst this
        simp [clearedTaskTables, savedTasksState]

/-- A failed save_tasks leaves the committed state untouched. -/
theorem SQLiteStorage.save_tasks_rollback (db : SQLiteDB)
    (ts : List (String × Task)) (db2 : SQLiteDB)
    (h : SQLiteStorage.save_tasks db ts = (false, db2)) : db2 = db := by
  rw [SQLiteStorage.save_tasks] at h
  cases he : SQLiteStorage.saveTasksE db ts with
  | error e => rw [he] at h; injection h with h1 h2; exact h2.symm
  | ok db3 => rw [he] at h; exact absurd h (by simp)

lemma insertTemplateE_ok (acc : SQLiteDB) (t : TaskTemplate)
    (acc2 : SQLiteDB) (h : insertTemplateE acc t = .ok acc2) :
    (∀ row ∈ acc.templates, row.name ≠ t.name) ∧
      acc2.templates = acc.templates ++ [templateRow t] := by
  unfold insertTemplateE at h
  split at h
  · exact absurd h (by simp)
  · constructor
    · intro row hrow hname
      rename_i hany
      rw [List.any_eq_true] at hany
      exact hany ⟨row, hrow, by simp [hname]⟩
    · injection h with h2
      subst h2
      rfl

lemma insertTemplatesE_names (tpls : List (String × TaskTemplate)) :
    ∀ (acc acc2 : SQLiteDB), insertTemplatesE tpls acc = .ok acc2 →
      (tpls.map fun kv => kv.2.name).Nodup ∧
        ∀ kv ∈ tpls, ∀ row ∈ acc.templates, row.name ≠ kv.2.name := by
  induction tpls with
  | nil => intro acc acc2 _; exact ⟨List.nodup_nil, by simp⟩
  | cons kv rest ih =>
      intro acc acc2 h
      rw [insertTemplatesE] at h
      cases hk : insertTemplateE acc kv.2 with
      | error e => rw [hk, exceptBind_error] at h; exact absurd h (by simp)
      | ok acc1 =>
          rw [hk, exceptBind_ok] at h
          obtain ⟨hfresh, htpl⟩ := insertTemplateE_ok acc kv.2 acc1 hk
          obtain ⟨hnodup, hmem⟩ := ih acc1 acc2 h
          refine ⟨?_, ?_⟩
          · rw [List.map_cons, List.nodup_cons]
            refine ⟨?_, hnodup⟩
            intro hin
            rcases List.mem_map.mp hin with ⟨kv2, hkv2, hname⟩
            have hmemrow : templateRow kv.2 ∈ acc1.templates := by
              rw [htpl]; exact List.mem_append_right _ (by simp)
            exact hmem kv2 hkv2 (templateRow kv.2) hmemrow
              (by simpa [templateRow] using hname.symm)
          · intro kv0 hkv0 row hrow
            rcases List.mem_cons.mp hkv0 with h0 | h0
            · subst h0; exact hfresh row hrow
            · have hrow1 : row ∈ acc1.templates := by
                rw [htpl]; exact List.mem_append_left _ hrow
              exact hmem kv0 h0 row hrow1

lemma nodup_names_of_pair {tpls : List (String × TaskTemplate)}
    {k1 k2 : String} {t1 t2 : TaskTemplate}
    (h1 : (k1, t1) ∈ tpls) (h2 : (k2, t2) ∈ tpls) (hk : k1 ≠ k2)
    (hnd : (tpls.map fun kv => kv.2.name).Nodup) : t1.name ≠ t2.name := by
  induction tpls with
  | nil => cases h1
  | cons kv rest ih =>
      rw [List.map_cons, List.nodup_cons] at hnd
      rcases List.mem_cons.mp h1 with ha | ha
      · subst ha
        rcases List.mem_cons.mp h2 with hb | hb
        · exact absurd (congrArg Prod.fst hb.symm) hk
        · intro heq
          exact hnd.1 (List.mem_map.mpr ⟨(k2, t2), hb, heq.symm⟩)
      · rcases List.mem_cons.mp h2 with hb | hb
        · subst hb
          intro heq
          exact hnd.1 (List.mem_map.mpr ⟨(k1, t1), ha, heq⟩)
        · exact ih ha hb hnd.2

/-!
The optional fields of Task: the fields whose dataclass default is None.
-/

/-- The Task fields declared Optional, all defaulting to None. -/
inductive OptTaskField where
  | dueDate
  | completedAt
  | recurrenceType
  | lastRecurrence
  | estimatedMinutes
  | templateName
  | reminderBeforeMinutes
  | lastReminded
deriving DecidableEq, Repr

/-- The record key of an optional field. -/
def OptTaskField.key : OptTaskField → String
  | .dueDate => "due_date"
  | .completedAt => "completed_at"
  | .recurrenceType => "recurrence_type"
  | .lastRecurrence => "last_recurrence"
  | .estimatedMinutes => "estimated_minutes"
  | .templateName => "template_name"
  | .reminderBeforeMinutes => "reminder_before_minutes"
  | .lastReminded => "last_reminded"

/-- The task with one optional field put back to its declared default. -/
def OptTaskField.clear : OptTaskField → Task → Task
  | .dueDate, t => { t with due_date := none }
  | .completedAt, t => { t with completed_at := none }
  | .recurrenceType, t => { t with recurrence_type := none }
  | .lastRecurrence, t => { t with last_recurrence := none }
  | .estimatedMinutes, t => { t with estimated_minutes := none }
  | .templateName, t => { t with template_name := none }
  | .reminderBeforeMinutes, t => { t with reminder_before_minutes := none }
  | .lastReminded, t => { t with last_reminded := none }

/-- Claim C6: a document-store task record from which an optional field is
absent decodes through the entity codec to a Task carrying that field's
declared default, not an error. -/
theorem claim_C6 (g : Gen) (t : Task) (f : OptTaskField) :
    Task.from_dict g (eraseKey f.key t.to_dict) = .ok (f.clear t) := by
  cases f
  case dueDate =>
    show taskOfView g { taskViewEnc t with fDue := none } =
      .ok { t with due_date := none }
    simp [taskOfView, taskViewEnc, exceptBind_ok, decStr_sstr, decOptStr_enc,
          decOptInt_enc, decBool_sbool, decInt_sint, decStrList_slist,
          decRecList_rlist, decOptStr_none]
  case completedAt =>
    show taskOfView g { taskViewEnc t with fCompleted := none } =
      .ok { t with completed_at := none }
    simp [taskOfView, taskViewEnc, exceptBind_ok, decStr_sstr, decOptStr_enc,
          decOptInt_enc, decBool_sbool, decInt_sint, decStrList_slist,
          decRecList_rlist, decOptStr_none]
  case recurrenceType =>
    show taskOfView g { taskViewEnc t with fRecType := none } =
      .ok { t with recurrence_type := none }
    simp [taskOfView, taskViewEnc, exceptBind_ok, decStr_sstr, decOptStr_enc,
          decOptInt_enc, decBool_sbool, decInt_sint, decStrList_slist,
          decRecList_rlist, decOptStr_none]
  case lastRecurrence =>
    show taskOfView g { taskViewEnc t with fLastRec := none } =
      .ok { t with last_recurrence := none }
    simp [taskOfView, taskViewEnc, exceptBind_ok, decStr_sstr, decOptStr_enc,
          decOptInt_enc, decBool_sbool, decInt_sint, decStrList_slist,
          decRecList_rlist, decOptStr_none]
  case estimatedMinutes =>
    show taskOfView g { taskViewEnc t with fEstimated := none } =
      .ok { t with estimated_minutes := none }
    simp [taskOfView, taskViewEnc, exceptBind_ok, decStr_sstr, decOptStr_enc,
          decOptInt_enc, decBool_sbool, decInt_sint, decStrList_slist,
          decRecList_rlist, decOptInt_none]
  case templateName =>
    show taskOfView g { taskViewEnc t with fTemplateName := none } =
      .ok { t with template_name := none }
    simp [taskOfView, taskViewEnc, exceptBind_ok, decStr_sstr, decOptStr_enc,
          decOptInt_enc, decBool_sbool, decInt_sint, decStrList_slist,
          decRecList_rlist, decOptStr_none]
  case reminderBeforeMinutes =>
    show taskOfView g { taskViewEnc t with fReminder := none } =
      .ok { t with reminder_before_minutes := none }
    simp [taskOfView, taskViewEnc, exceptBind_ok, decStr_sstr, decOptStr_enc,
          decOptInt_enc, decBool_sbool, decInt_sint, decStrList_slist,
          decRecList_rlist, decOptInt_none]
  case lastReminded =>
    show taskOfView g { taskViewEnc t with fLastReminded := none } =
      .ok { t with last_reminded := none }
    simp [taskOfView, taskViewEnc, exceptBind_ok, decStr_sstr, decOptStr_enc,
          decOptInt_enc, decBool_sbool, decInt_sint, decStrList_slist,
          decRecList_rlist, decOptStr_none]

/-!
Concrete data for witnesses: one rich task with populated categories, tags
and dependencies and both a completed and an active time entry, and two
distinct templates sharing a name.
-/

/-- A fixed factory outcome for concrete runs. -/
def genW : Gen := { uuid := "fresh-uuid", now := "2024-01-02T00:00:00" }

/-- A completed time entry. -/
def teW1 : TimeEntry :=
  { id := "te-1", start_time := "2024-01-01T10:00:00",
    end_time := some "2024-01-01T11:00:00", duration_minutes := 60,
    notes := "first hour" }

/-- An active time entry: no end time yet. -/
def teW2 : TimeEntry :=
  { id := "te-2", start_time := "2024-01-01T12:00:00", end_time := none,
    duration_minutes := 0, notes := "" }

/-- A task with populated categories, tags and dependencies, one completed
and one active time entry. -/
def tW : Task :=
  { id := "t-1", title := "Write report", description := "quarterly",
    priority := "high", status := "pending",
    created_at := "2024-01-01T09:00:00",
    updated_at := "2024-01-01T09:30:00",
    due_date := some "2024-01-03T09:00:00", completed_at := none,
    categories := ["work"], tags := ["deep"], is_recurring := false,
    recurrence_type := none, recurrence_interval := 1,
    last_recurrence := none, depends_on := ["t-0"], blocked_by := [],
    time_entries := [teW1.to_dict, teW2.to_dict],
    estimated_minutes := some 120, is_template := false,
    template_name := none, reminder_before_minutes := some 60,
    last_reminded := none }

/-- A template named daily-report. -/
def tplW1 : TaskTemplate :=
  { id := "tp-1", name := "daily-report", title := "Report",
    description := "", priority := "medium", categories := ["work"],
    tags := [], estimated_minutes := none,
    reminder_before_minutes := none }

/-- A different template carrying the same name. -/
def tplW2 : TaskTemplate :=
  { id := "tp-2", name := "daily-report", title := "Report B",
    description := "other", priority := "high", categories := [],
    tags := ["x"], estimated_minutes := some 30,
    reminder_before_minutes := some 10 }

/-!
The claims.
-/

/-- Claim C3: the document backend never propagates an exception: whatever
the try-block of any of its four operations raises is caught, loads
returning the empty mapping and saves returning false, while a successful
operation passes its result through. -/
theorem claim_C3 :
    (∀ (g : Gen) (f : JFile) (e : String),
        JSONStorage.loadTasksE g f = .error e →
          JSONStorage.load_tasks g f = []) ∧
    (∀ (g : Gen) (f : JFile) (m : List (String × Task)),
        JSONStorage.loadTasksE g f = .ok m →
          JSONStorage.load_tasks g f = m) ∧
    (∀ (g : Gen) (f : JFile) (e : String),
        JSONStorage.loadTemplatesE g f = .error e →
          JSONStorage.load_templates g f = []) ∧
    (∀ (g : Gen) (f : JFile) (m : List (String × TaskTemplate)),
        JSONStorage.loadTemplatesE g f = .ok m →
          JSONStorage.load_templates g f = m) ∧
    (∀ (fs : JFile) (ts : List (String × Task)),
        JSONStorage.save_tasks .ok fs ts = (true, encodeTasksFile ts)) ∧
    (∀ (w : WriteOutcome) (fs : JFile) (ts : List (String × Task)),
        w ≠ .ok → (JSONStorage.save_tasks w fs ts).1 = false) ∧
    (∀ (fs : JFile) (tpls : List (String × TaskTemplate)),
        JSONStorage.save_templates .ok fs tpls =
          (true, encodeTemplatesFile tpls)) ∧
    (∀ (w : WriteOutcome) (fs : JFile)
        (tpls : List (String × TaskTemplate)),
        w ≠ .ok → (JSONStorage.save_templates w fs tpls).1 = false) := by
  refine ⟨?_, ?_, ?_, ?_, ?_, ?_, ?_, ?_⟩
  · intro g f e h
    simp [JSONStorage.load_tasks, h]
  · intro g f m h
    simp [JSONStorage.load_tasks, h]
  · intro g f e h
    simp [JSONStorage.load_templates, h]
  · intro g f m h
    simp [JSONStorage.load_templates, h]
  · intro fs ts
    rfl
  · intro w fs ts hw
    cases w with
    | ok => exact absurd rfl hw
    | openFail => rfl
    | writeFail => rfl
  · intro fs tpls
    rfl
  · intro w fs tpls hw
    cases w with
    | ok => exact absurd rfl hw
    | openFail => rfl
    | writeFail => rfl

/-- Witness for C3: a malformed file loads as the empty mapping, and a
save whose write raises in either mode reports false. -/
theorem claim_C3_witness :
    JSONStorage.load_tasks genW .malformed = [] ∧
      (JSONStorage.save_tasks .writeFail (.good []) []).1 = false ∧
      (JSONStorage.save_tasks .openFail (.good []) []).1 = false :=
  ⟨claim_C3.1 genW .malformed "json.loads" rfl,
    claim_C3.2.2.2.2.2.1 .writeFail (.good []) [] (by decide),
    claim_C3.2.2.2.2.2.1 .openFail (.good []) [] (by decide)⟩

/-- Claim C4: a read failure in the relational backend (a corrupt or
missing schema) raises to the caller from both load operations; it is not
degraded to an empty mapping. -/
theorem claim_C4 (g : Gen) (db : SQLiteDB) (h : db.corrupt = true) :
    (∃ e, SQLiteStorage.load_tasks g db = .error e) ∧
      (∃ e, SQLiteStorage.load_templates g db = .error e) :=
  ⟨⟨"no such table", by simp [SQLiteStorage.load_tasks, h]⟩,
    ⟨"no such table", by simp [SQLiteStorage.load_templates, h]⟩⟩

/-- Witness for C4 at a concrete corrupt database. -/
theorem claim_C4_witness :
    (∃ e, SQLiteStorage.load_tasks genW { emptyDB with corrupt := true } =
      .error e) ∧
      (∃ e, SQLiteStorage.load_templates genW
        { emptyDB with corrupt := true } = .error e) :=
  claim_C4 genW { emptyDB with corrupt := true } rfl


/-- Claim C5: a template mapping holding two distinct templates with the
same name makes the relational save_templates fail through the uniqueness
constraint on the name column, leaving the persisted templates unchanged,
while the document save_templates accepts the same mapping, reports
success, and persists both duplicates. -/
theorem claim_C5 (db : SQLiteDB) (tpls : List (String × TaskTemplate))
    (fs : JFile) (k1 k2 : String) (t1 t2 : TaskTemplate)
    (h1 : (k1, t1) ∈ tpls) (h2 : (k2, t2) ∈ tpls) (hk : k1 ≠ k2)
    (hname : t1.name = t2.name) :
    SQLiteStorage.save_templates db tpls = (false, db) ∧
      JSONStorage.save_templates .ok fs tpls =
        (true, encodeTemplatesFile tpls) := by
  constructor
  · rw [SQLiteStorage.save_templates]
    cases he : SQLiteStorage.saveTemplatesE db tpls with
    | error e => rfl
    | ok db3 =>
        exfalso
        rw [SQLiteStorage.saveTemplatesE] at he
        split at he
        · exact absurd he (by simp)
        · exact nodup_names_of_pair h1 h2 hk
            (insertTemplatesE_names tpls _ db3 he).1 hname
  · rfl

/-- Witness for C5 with two concrete templates sharing a name. -/
theorem claim_C5_witness :
    SQLiteStorage.save_templates emptyDB
        [("tp-1", tplW1), ("tp-2", tplW2)] = (false, emptyDB) ∧
      JSONStorage.save_templates .ok .malformed
          [("tp-1", tplW1), ("tp-2", tplW2)] =
        (true, encodeTemplatesFile [("tp-1", tplW1), ("tp-2", tplW2)]) :=
  claim_C5 emptyDB [("tp-1", tplW1), ("tp-2", tplW2)] .malformed
    "tp-1" "tp-2" tplW1 tplW2 (by simp) (by simp) (by decide) rfl

/-- Claim C9: decoding is strict on unknown fields: a stored record with a
key outside the declared Task fields makes Task.from_dict raise, and since
the document load decodes all records inside one guarded loop, one such
record makes load_tasks return the empty mapping, dropping every task in
the file. -/
theorem claim_C9 (g : Gen) (entries : List (String × Rec)) (k : String)
    (r : Rec) (key : String) (v : FVal)
    (hmem : (k, r) ∈ entries) (hkv : (key, v) ∈ r)
    (hunk : key ∉ taskFieldNames) :
    (∃ e, Task.from_dict g r = .error e) ∧
      JSONStorage.load_tasks g (.good entries) = [] := by
  have hkeys : (r.all fun kv => taskFieldNames.contains kv.1) = false := by
    rw [List.all_eq_false]
    exact ⟨(key, v), hkv, by simpa using hunk⟩
  have herr : Task.from_dict g r = .error "unexpected keyword argument" := by
    rw [Task.from_dict, hkeys]
    rfl
  refine ⟨⟨_, herr⟩, ?_⟩
  have hE : ∃ e2, JSONStorage.loadTasksE g (.good entries) = .error e2 := by
    apply mapRecsM_error _ entries (k, r) hmem
      "unexpected keyword argument"
    rw [herr]
    rfl
  rcases hE with ⟨e2, h2⟩
  simp [JSONStorage.load_tasks, h2]

/-- Witness for C9: one record with one unknown key empties the whole load,
dropping the well-formed record stored next to it. -/
theorem claim_C9_witness :
    (∃ e, Task.from_dict genW
        [("id", .scalar (.sstr "t-9")), ("bogus", .scalar .snull)] =
      .error e) ∧
      JSONStorage.load_tasks genW
          (.good [("t-1", tW.to_dict),
                  ("t-9", [("id", .scalar (.sstr "t-9")),
                           ("bogus", .scalar .snull)])]) = [] :=
  claim_C9 genW _ "t-9"
    [("id", .scalar (.sstr "t-9")), ("bogus", .scalar .snull)]
    "bogus" (.scalar .snull) (by simp) (by simp) (by decide)

/-- Claim C10: every time entry of a task saved and then loaded through the
relational backend is a whole-row dict whose keys are the TimeEntry fields
plus the extra task_id column, and TimeEntry.from_dict applied to such an
entry raises instead of reconstructing the entry. -/
theorem claim_C10 (g : Gen) (db : SQLiteDB) (ts : List (String × Task))
    (db2 : SQLiteDB) (m : List (String × Task)) (k : String) (t : Task)
    (e : FlatRec)
    (_hsave : SQLiteStorage.save_tasks db ts = (true, db2))
    (hload : SQLiteStorage.load_tasks g db2 = .ok m)
    (hmem : (k, t) ∈ m) (hent : e ∈ t.time_entries) :
    e.map Prod.fst =
        ["id", "task_id", "start_time", "end_time", "duration_minutes",
         "notes"] ∧
      ∃ msg, TimeEntry.from_dict g e = .error msg := by
  cases hc : db2.corrupt with
  | true =>
      rw [SQLiteStorage.load_tasks, if_pos (by simp [hc])] at hload
      exact absurd hload (by simp)
  | false =>
      rw [SQLiteStorage.load_tasks_ok g db2 hc] at hload
      injection hload with hm
      subst hm
      rcases List.mem_map.mp hmem with ⟨row, hrow, hpair⟩
      have ht : taskOfRow db2 row = t := congrArg Prod.snd hpair
      rw [← ht] at hent
      have hent2 : e ∈ (db2.time_entries.filter
          fun er => er.task_id == row.id).map timeEntryRowRec := hent
      rcases List.mem_map.mp hent2 with ⟨erow, _, hee⟩
      subst hee
      exact ⟨rfl, ⟨"unexpected keyword argument", rfl⟩⟩

/-- The mapping saved for the concrete relational round trip. -/
def tsW : List (String × Task) := [("t-1", tW)]

/-- The database state after the concrete save. -/
def db2W : SQLiteDB := (SQLiteStorage.save_tasks emptyDB tsW).2

/-- The mapping the concrete load returns. -/
def m2W : List (String × Task) :=
  db2W.tasks.map fun row => (row.id, taskOfRow db2W row)

/-- The concrete loaded task. -/
def tLW : Task := taskOfRow db2W (taskRow tW)

/-- The first loaded time entry: the whole row as a dict. -/
def e0W : FlatRec :=
  [ ("id", .sstr "te-1"), ("task_id", .sstr "t-1"),
    ("start_time", .sstr "2024-01-01T10:00:00"),
    ("end_time", .sstr "2024-01-01T11:00:00"),
    ("duration_minutes", .srat 60), ("notes", .sstr "first hour") ]

/-- Witness for C10 on the concrete saved-then-loaded task. -/
theorem claim_C10_witness :
    e0W.map Prod.fst =
        ["id", "task_id", "start_time", "end_time", "duration_minutes",
         "notes"] ∧
      ∃ msg, TimeEntry.from_dict genW e0W = .error msg :=
  claim_C10 genW emptyDB tsW db2W m2W "t-1" tLW e0W rfl
    (SQLiteStorage.load_tasks_ok genW db2W rfl) (by decide) (by decide)

/-- Claim C1, settled against the code: for the task tW, whose categories,
tags and dependencies are populated and whose entries hold one completed
and one active time entry, the document backend round-trips save then load
to a deep-equal mapping, but the relational backend does not: its load
succeeds yet returns a task that differs from tW, because every loaded
time entry carries the extra task_id column of its row. -/
theorem claim_C1 :
    JSONStorage.load_tasks genW
        (JSONStorage.save_tasks .ok (.good []) tsW).2 = tsW ∧
      SQLiteStorage.save_tasks emptyDB tsW = (true, db2W) ∧
      SQLiteStorage.load_tasks genW db2W = .ok m2W ∧
      m2W ≠ tsW :=
  ⟨rfl, rfl, SQLiteStorage.load_tasks_ok genW db2W rfl, by decide⟩

/-- A task whose single time entry lacks the id key the insert reads by
getitem: saving it raises KeyError inside the transaction. -/
def tBadW : Task :=
  { tW with
    id := "bad"
    time_entries := [[("notes", SVal.sstr "no id")]] }

/-- Claim C2, settled against the code: the relational save_tasks is
atomic for a single process — the successful save of tsW commits exactly
the encoded mapping, and a save that fails mid-transaction (a KeyError
while inserting the malformed entry of tBadW) rolls back, so the
committed state and a subsequent load_tasks are those of the pre-call
state — but the document save_tasks is not: with the file holding the
mapping tsW, a write that fails after the truncating open is caught and
reported as false, yet it leaves the file partial, so a subsequent
load_tasks returns the empty mapping rather than the prior state. -/
theorem claim_C2 :
    SQLiteStorage.save_tasks emptyDB tsW =
        (true, savedTasksState emptyDB tsW) ∧
      SQLiteStorage.save_tasks db2W [("bad", tBadW)] = (false, db2W) ∧
      SQLiteStorage.load_tasks genW
          (SQLiteStorage.save_tasks db2W [("bad", tBadW)]).2 =
        SQLiteStorage.load_tasks genW db2W ∧
      JSONStorage.load_tasks genW (encodeTasksFile tsW) = tsW ∧
      JSONStorage.save_tasks .writeFail (encodeTasksFile tsW) tsW =
        (false, .malformed) ∧
      JSONStorage.load_tasks genW .malformed = [] ∧
      ([] : List (String × Task)) ≠ tsW :=
  ⟨rfl, rfl, rfl, rfl, rfl, rfl, by decide⟩

/-- Claim C7: a task due in one hour with a two-hour reminder window, not
completed and never reminded, needs a reminder now; once last_reminded is
stamped with the current time, every check made less than one hour later
returns false. -/
theorem claim_C7 (parse : String → ℚ) (now : ℚ) (t : Task) (d : String)
    (hd : t.due_date = some d) (hd2 : d ≠ "")
    (hp : parse d = now + 60)
    (hr : t.reminder_before_minutes = some 120)
    (hs : t.status ≠ "completed") (hl : t.last_reminded = none) :
    Task.needs_reminder parse now t = true ∧
      ∀ (now2 : ℚ) (s : String), s ≠ "" → parse s = now → now ≤ now2 →
        now2 - now < 60 →
        Task.needs_reminder parse now2 { t with last_reminded := some s } =
          false := by
  constructor
  · rw [Task.needs_reminder, hd, hr, hl]
    simp [strOptTruthy, intOptTruthy, hd2, hs, hp]
    linarith
  · intro now2 s hs2 hps hle hlt
    rw [Task.needs_reminder]
    simp only [strOptTruthy, intOptTruthy, hd, hr, hs2, Option.getD_some]
    have hc1 : parse d - ((120 : Int) : ℚ) ≤ now2 := by
      rw [hp]
      push_cast
      linarith
    have hc2 : now2 - parse s < 60 := by
      rw [hps]
      exact hlt
    simp [hd2, hs, hc1, hc2]
    exact fun _ => hs2


/-- A concrete clock: the due timestamp reads as minute 60, everything else
as minute 0. -/
def parseW : String → ℚ := fun s => if s = "DUE" then 60 else 0

/-- The concrete reminder task: due at minute 60, two-hour window. -/
def tRemW : Task :=
  { tW with due_date := some "DUE", reminder_before_minutes := some 120,
            last_reminded := none }

/-- Witness for C7 at minute 0 and a re-check at minute 30. -/
theorem claim_C7_witness :
    Task.needs_reminder parseW 0 tRemW = true ∧
      Task.needs_reminder parseW 30
        { tRemW with last_reminded := some "LR" } = false :=
  have h := claim_C7 parseW 0 tRemW "DUE" rfl (by decide)
    (by simp [parseW]) rfl (by decide) rfl
  ⟨h.1, h.2 30 "LR" (by decide) (by simp [parseW]) (by norm_num)
    (by norm_num)⟩

/-- Claim C8: completing a recurring daily task with interval 2 spawns a
new pending task with a fresh id, an empty time-entry list and the due
date advanced by two days, and changes the original only in its
completion fields. -/
theorem claim_C8 (parse : String → ℚ) (fmt : ℚ → String) (g : Gen)
    (tasks : List (String × Task)) (tid : String) (t : Task) (d : String)
    (hfind : recFind tasks tid = some t)
    (hrec : t.is_recurring = true)
    (htype : t.recurrence_type = some "daily")
    (hint : t.recurrence_interval = 2)
    (hdue : t.due_date = some d) (hd2 : d ≠ "")
    (hfresh : g.uuid ≠ t.id) :
    ∃ next : Task,
      TaskManager.complete_task parse fmt g tasks tid =
        (some (t.complete g.now),
          mapSet (mapSet tasks tid (t.complete g.now)) next.id next) ∧
      next.id = g.uuid ∧ next.id ≠ t.id ∧ next.status = "pending" ∧
      next.time_entries = [] ∧
      next.due_date = some (fmt (parse d + 2 * dayMinutes)) ∧
      t.complete g.now =
        { t with
          status := "completed"
          completed_at := some g.now
          updated_at := g.now } := by
  refine ⟨{ t with
            id := g.uuid
            status := "pending"
            completed_at := none
            created_at := g.now
            updated_at := g.now
            time_entries := []
            due_date := some (fmt (parse d + 2 * dayMinutes))
            last_recurrence := some g.now },
          ?_, rfl, hfresh, rfl, rfl, rfl, rfl⟩
  have hgen : Task.generate_next_recurrence parse fmt g (t.complete g.now) =
      some { t with
             id := g.uuid
             status := "pending"
             completed_at := none
             created_at := g.now
             updated_at := g.now
             time_entries := []
             due_date := some (fmt (parse d + 2 * dayMinutes))
             last_recurrence := some g.now } := by
    rw [Task.generate_next_recurrence]
    simp only [Task.complete]
    simp [hrec, htype, strOptTruthy, hdue, hd2, hint, mul_comm]
  rw [TaskManager.complete_task, hfind]
  have hrec2 : (t.complete g.now).is_recurring = true := hrec
  simp [hrec2, hgen]

/-- A constant formatter for the concrete recurrence run. -/
def fmtW : ℚ → String := fun _ => "NEXT-DUE"

/-- The concrete recurring task: daily, interval 2, due at DUE. -/
def tRecW : Task :=
  { tW with
    id := "r-1"
    is_recurring := true
    recurrence_type := some "daily"
    recurrence_interval := 2
    due_date := some "DUE" }

/-- Witness for C8 on the concrete recurring task. -/
theorem claim_C8_witness :
    ∃ next : Task,
      TaskManager.complete_task parseW fmtW genW [("r-1", tRecW)] "r-1" =
        (some (tRecW.complete genW.now),
          mapSet (mapSet [("r-1", tRecW)] "r-1" (tRecW.complete genW.now))
            next.id next) ∧
      next.id = genW.uuid ∧ next.id ≠ tRecW.id ∧ next.status = "pending" ∧
      next.time_entries = [] ∧
      next.due_date = some (fmtW (parseW "DUE" + 2 * dayMinutes)) ∧
      tRecW.complete genW.now =
        { tRecW with
          status := "completed"
          completed_at := some genW.now
          updated_at := genW.now } :=
  claim_C8 parseW fmtW genW [("r-1", tRecW)] "r-1" tRecW "DUE" rfl rfl rfl
    rfl rfl (by decide) (by decide)

end TaskMgr
